import Mathlib

/-!
Verification of the Citron emulator self-update engine.

The definitions below are a shallow embedding of `Updater::UpdaterService`
(source: `src/citron/configuration/configure_filesystem.cpp`, updater section):
`ExtractCommitHash`, `ParseUpdateResponse` (release scanning and asset
selection), `GetCurrentVersion`, `CheckForUpdates`, `DownloadAndInstallUpdate`,
`CancelUpdate`, `OnDownloadFinished` (both the Windows staged-helper path and
the Linux direct-replace path), `InstallUpdate`, and the cleanup loop of the
generated `apply_update.bat` helper script.

Qt string operations (`QString::toLower`, case-insensitive `contains` and
`endsWith`) are modelled over ASCII, which covers every literal the updater
compares against. `QJsonValue` coercion semantics (`toObject`, `toArray`,
`toString` return empty defaults on mismatched kinds) are modelled faithfully
by the `JVal` accessors.
-/

namespace Citron

/-- ASCII lowercase of a string, modelling `QString::toLower` on the ASCII
strings the updater manipulates. -/
def strLower (s : String) : String := ⟨s.data.map Char.toLower⟩

/-- Whether `pat` occurs as a contiguous sublist of `hay` (modelling
`std::string::find(pat) != npos` / `QString::contains`). -/
def subListAt (pat : List Char) : List Char → Bool
  | [] => pat.isEmpty
  | c :: rest => List.isPrefixOf pat (c :: rest) || subListAt pat rest

/-- Case-sensitive substring test, modelling `std::string::find != npos`. -/
def strContains (hay pat : String) : Bool := subListAt pat.data hay.data

/-- Case-insensitive substring test, modelling
`QString::contains(pat, Qt::CaseInsensitive)`. -/
def strContainsCI (hay pat : String) : Bool :=
  strContains (strLower hay) (strLower pat)

/-- Case-insensitive suffix test, modelling
`QString::endsWith(pat, Qt::CaseInsensitive)`. -/
def strEndsWithCI (hay pat : String) : Bool :=
  List.isPrefixOf (strLower pat).data.reverse (strLower hay).data.reverse

/-- Hexadecimal character class of the regex `[0-9a-fA-F]`. -/
def isHexChar (c : Char) : Bool :=
  c.isDigit || (97 ≤ c.toNat && c.toNat ≤ 102) || (65 ≤ c.toNat && c.toNat ≤ 70)

/-- Scan for the leftmost run of at least 7 hexadecimal characters and return
its first at-most-40 characters, as `std::regex_search` does for the pattern
`([0-9a-fA-F]{7,40})` (leftmost match position, greedy repetition). -/
def extractHashAux : List Char → List Char
  | [] => []
  | c :: rest =>
    if 7 ≤ ((c :: rest).takeWhile isHexChar).length then
      ((c :: rest).takeWhile isHexChar).take 40
    else extractHashAux rest

/-- `Updater::ExtractCommitHash`: first run of 7 to 40 hex characters in the
release title, or the empty string. -/
def extractCommitHash (s : String) : String := ⟨extractHashAux s.data⟩

/-- Parsed JSON values as consumed through `QJsonDocument` / `QJsonValue`.
The numeric payload is never read by the updater, so it is not carried. -/
inductive JVal where
  | jnull
  | jbool (b : Bool)
  | jnum
  | jstr (s : String)
  | jarr (elems : List JVal)
  | jobj (fields : List (String × JVal))

/-- `QJsonValue::toObject`: the fields of an object, `{}` for any other kind. -/
def jObjFields : JVal → List (String × JVal)
  | .jobj fs => fs
  | _ => []

/-- `QJsonObject::value`: the value bound to `k`, `Undefined` (here `jnull`)
when absent. -/
def jLookup (fs : List (String × JVal)) (k : String) : JVal :=
  match fs with
  | [] => .jnull
  | (k', v) :: rest => if k' = k then v else jLookup rest k

/-- `QJsonValue::toString`: the string payload, `""` for any other kind. -/
def jStr : JVal → String
  | .jstr s => s
  | _ => ""

/-- `QJsonValue::toArray`: the element list, `[]` for any other kind. -/
def jArr : JVal → List JVal
  | .jarr xs => xs
  | _ => []

/-- `rel_obj.value(k).toString()` for a release or asset object. -/
def objStr (v : JVal) (k : String) : String := jStr (jLookup (jObjFields v) k)

/-- The two platforms the updater is compiled for (`__linux__` / `_WIN32`). -/
inductive Platform where
  | linux
  | windows
deriving DecidableEq

def Platform.isWindows : Platform → Bool
  | .windows => true
  | .linux => false

/-- `Updater::DownloadOption` (asset display name and direct download URL). -/
structure DownloadOption where
  name : String
  url : String
deriving DecidableEq

/-- The `DownloadOption` built from one asset object: its `name` and
`browser_download_url` fields. -/
def assetOption (a : JVal) : DownloadOption :=
  { name := objStr a "name", url := objStr a "browser_download_url" }

/-- Platform filter on one asset filename: Linux keeps `.AppImage` files;
Windows keeps `.zip` files that do not mention `PGO` (both case-insensitive),
per the `continue` guards in `ParseUpdateResponse`. -/
def osValidPred (p : Platform) (name : String) : Bool :=
  match p with
  | .linux => strEndsWithCI name ".AppImage"
  | .windows => strEndsWithCI name ".zip" && !strContainsCI name "PGO"

/-- Linux architecture matching from `ParseUpdateResponse`: aarch64 builds
take aarch64-tagged assets, v3 builds take v3-tagged assets, and a generic
x86_64 build (no v3) takes assets carrying neither competing tag. The build
variant is searched case-sensitively (`std::string::find`), the asset name
case-insensitively (`QString::contains`). -/
def linuxVariantPred (variant name : String) : Bool :=
  if strContains variant "aarch64" && strContainsCI name "aarch64" then true
  else if strContains variant "v3" && strContainsCI name "v3" then true
  else if !strContainsCI name "v3" && !strContainsCI name "aarch64" then
    strContains variant "x86_64" && !strContains variant "v3"
  else false

/-- Windows variant matching from `ParseUpdateResponse`: v3 builds take
v3-tagged assets, non-v3 builds take assets without a v3 tag. -/
def winVariantPred (variant name : String) : Bool :=
  if strContains variant "v3" && strContainsCI name "v3" then true
  else if !strContains variant "v3" && !strContainsCI name "v3" then true
  else false

def variantPred (p : Platform) (variant name : String) : Bool :=
  match p with
  | .linux => linuxVariantPred variant name
  | .windows => winVariantPred variant name

/-- The asset loop of `ParseUpdateResponse`: one left-to-right pass over the
release's assets pushing onto `os_valid` (first component) and
`variant_matched` (second component). -/
def selectLists (p : Platform) (variant : String) :
    List JVal → List DownloadOption × List DownloadOption
  | [] => ([], [])
  | a :: rest =>
    if osValidPred p (assetOption a).name then
      (assetOption a :: (selectLists p variant rest).1,
       if variantPred p variant (assetOption a).name then
         assetOption a :: (selectLists p variant rest).2
       else (selectLists p variant rest).2)
    else selectLists p variant rest

/-- The `os_valid` vector built for one release record. -/
def osValid (p : Platform) (variant : String) (assets : List JVal) :
    List DownloadOption :=
  (selectLists p variant assets).1

/-- The `variant_matched` vector built for one release record. -/
def variantMatched (p : Platform) (variant : String) (assets : List JVal) :
    List DownloadOption :=
  (selectLists p variant assets).2

/-- `info.download_options = variant_matched.empty() ? os_valid :
variant_matched;` — the asset-selection result for one release record. -/
def selectAssets (p : Platform) (variant : String) (assets : List JVal) :
    List DownloadOption :=
  if (variantMatched p variant assets).isEmpty then osValid p variant assets
  else variantMatched p variant assets

/-- `Updater::UpdateInfo` as filled in by `ParseUpdateResponse`. -/
structure UpdateInfo where
  version : String
  changelog : String
  release_date : String
  download_options : List DownloadOption
  is_newer_version : Bool
deriving DecidableEq

/-- `UpdaterService::GetCurrentVersion`: empty channel falls back to the
stored settings channel; a (case-insensitively) nightly channel reports the
baked build hash, anything else the release version string. -/
def getCurrentVersion (settingsChannel hash version channel : String) : String :=
  if strLower (if channel = "" then settingsChannel else channel) = "nightly" then hash
  else version

/-- The candidate version string derived from one release record: the
`tag_name` field on the stable channel, the commit hash extracted from the
`name` field otherwise. -/
def releaseVersion (channel : String) (rel : JVal) : String :=
  if strLower channel = "stable" then objStr rel "tag_name"
  else extractCommitHash (objStr rel "name")

/-- The `assets` array of one release record. -/
def releaseAssets (rel : JVal) : List JVal :=
  jArr (jLookup (jObjFields rel) "assets")

/-- The `UpdateInfo` built from the chosen release record (version,
changelog body, publish timestamp, selected download options, and
`is_newer_version` computed by plain string inequality). -/
def buildInfo (p : Platform) (variant currentV channel : String) (rel : JVal) :
    UpdateInfo :=
  { version := releaseVersion channel rel
    changelog := objStr rel "body"
    release_date := objStr rel "published_at"
    download_options := selectAssets p variant (releaseAssets rel)
    is_newer_version := currentV != releaseVersion channel rel }

/-- What a feed check makes observable to the caller: either the
`UpdateCheckCompleted(is_newer, info)` signal, or nothing at all
(`ParseUpdateResponse` has no other emission). -/
inductive CheckOutcome where
  | completed (isNewer : Bool) (info : UpdateInfo)
  | silent
deriving DecidableEq

/-- Whether any record of a compatible asset reached the caller. -/
def surfaced : CheckOutcome → Bool
  | .silent => false
  | _ => true

/-- Whether a release record yields a non-empty download-option list. -/
def compatibleRecord (p : Platform) (variant : String) (rel : JVal) : Bool :=
  !(selectAssets p variant (releaseAssets rel)).isEmpty

/-- The release-record loop of `ParseUpdateResponse`: skip records with no
derivable version, skip records with no compatible asset, and return the
first remaining record immediately. -/
def parseFeed (p : Platform) (variant currentV channel : String) :
    List JVal → CheckOutcome
  | [] => .silent
  | rel :: rest =>
    if releaseVersion channel rel = "" then parseFeed p variant currentV channel rest
    else if (selectAssets p variant (releaseAssets rel)).isEmpty then
      parseFeed p variant currentV channel rest
    else
      CheckOutcome.completed (currentV != releaseVersion channel rel)
        (buildInfo p variant (currentV) channel rel)

/-- `UpdaterService::ParseUpdateResponse`: a payload that did not parse
(`none`) or is not a JSON array returns without any emission; an array is
scanned by `parseFeed` against the current version for the channel. -/
def parseUpdateResponse (p : Platform)
    (variant settingsChannel hash version channel : String)
    (doc : Option JVal) : CheckOutcome :=
  match doc with
  | some (.jarr feed) =>
    parseFeed p variant (getCurrentVersion settingsChannel hash version channel)
      channel feed
  | _ => .silent

/-- The `Updater::UpdateResult` enum. -/
inductive UpdateResult where
  | success
  | failed
  | extractionError
  | permissionError
deriving DecidableEq

/-- The signals an update attempt can emit to the caller:
`UpdateError(message)` or `UpdateCompleted(result, message)`. -/
inductive Emission where
  | updateError (msg : String)
  | updateCompleted (result : UpdateResult) (msg : String)
deriving DecidableEq

/-- Whether some `UpdateCompleted` carrying `Success` is among the emissions. -/
def emitsSuccess (es : List Emission) : Bool :=
  es.any fun e =>
    match e with
    | .updateCompleted .success _ => true
    | _ => false

/-- Whether some `UpdateCompleted` signal (any `UpdateResult`) is among the
emissions. -/
def reportsUpdateResult (es : List Emission) : Bool :=
  es.any fun e =>
    match e with
    | .updateCompleted _ _ => true
    | _ => false

/-- The mutable flags of `UpdaterService`: the atomic `update_in_progress`
and `cancel_requested` flags, and whether a network reply is live
(`current_reply != nullptr`). -/
structure UpdaterState where
  update_in_progress : Bool
  cancel_requested : Bool
  hasActiveReply : Bool
deriving DecidableEq

/-- `UpdaterService::CheckForUpdates`: returns immediately when an update is
in progress, otherwise issues the feed request (second component: whether a
request was issued). -/
def checkForUpdates (s : UpdaterState) : UpdaterState × Bool :=
  if s.update_in_progress then (s, false)
  else ({ s with hasActiveReply := true }, true)

/-- Observable outcome of `DownloadAndInstallUpdate` up to the point where
the download request is (or is not) issued. -/
structure StartOutcome where
  state : UpdaterState
  emitted : List Emission
  backupAttempted : Bool
  downloadStarted : Bool
deriving DecidableEq

/-- `UpdaterService::DownloadAndInstallUpdate`: no-op while an update is in
progress; otherwise sets the in-progress flag, clears the cancel flag, on
Windows first snapshots `citron.exe` (`CreateBackup`, success given by
`backupOk`) and aborts with `PermissionError` when that fails, and only then
issues the streaming download request. -/
def downloadAndInstallUpdate (p : Platform) (s : UpdaterState) (backupOk : Bool) :
    StartOutcome :=
  if s.update_in_progress then ⟨s, [], false, false⟩
  else if p.isWindows && !backupOk then
    ⟨{ s with update_in_progress := false, cancel_requested := false },
     [.updateCompleted .permissionError "Failed to create backup of citron.exe"],
     true, false⟩
  else
    ⟨{ update_in_progress := true, cancel_requested := false, hasActiveReply := true },
     [], p.isWindows, true⟩

/-- Observable outcome of `CancelUpdate`. -/
structure CancelOutcome where
  state : UpdaterState
  abortIssued : Bool
deriving DecidableEq

/-- `UpdaterService::CancelUpdate`: ignored unless an update is in progress;
otherwise sets the cancel flag, aborts the live reply if any, and clears the
in-progress flag. -/
def cancelUpdate (s : UpdaterState) : CancelOutcome :=
  if !s.update_in_progress then ⟨s, false⟩
  else
    ⟨{ update_in_progress := false, cancel_requested := true,
       hasActiveReply := s.hasActiveReply }, s.hasActiveReply⟩

/-- Where `UpdaterService::InstallUpdate` can fail: while creating/cleaning
the staging directory (before it durably exists), while copying a file into
the existing staging tree, or while opening `apply_update.bat`
(`CreateUpdateHelperScript`); or it succeeds. -/
inductive InstallStep where
  | stageCreateFail
  | stageCopyFail
  | helperScriptFail
  | ok
deriving DecidableEq

/-- `UpdaterService::InstallUpdate` summarised as (returned success, whether
the `update_staging` directory exists once it returns). No branch of the
source removes the staging directory on failure: only the detached helper
script deletes it, later. -/
def installUpdate : InstallStep → Bool × Bool
  | .stageCreateFail => (false, false)
  | .stageCopyFail => (false, true)
  | .helperScriptFail => (false, true)
  | .ok => (true, true)

/-- Observable outcome of the Windows `OnDownloadFinished` handler. -/
structure WinFinishOutcome where
  emitted : List Emission
  restoreInvoked : Bool
  wroteZip : Bool
  stagingExists : Bool
  update_in_progress : Bool
deriving DecidableEq

/-- Windows `UpdaterService::OnDownloadFinished`: a cancelled (or replyless)
attempt just clears the in-progress flag; a transport error emits
`UpdateError`; then the payload is written to `citron_update.zip` and
extraction failure emits `ExtractionError` after `RestoreBackup`, staging
failure emits `Failed` after `RestoreBackup`, and success emits `Success`.
`cancelRequested` also covers the `current_reply == nullptr` guard of the
same `if`. -/
def onDownloadFinishedWin (cancelRequested networkOk extractOk : Bool)
    (istep : InstallStep) (netErrMsg : String) : WinFinishOutcome :=
  if cancelRequested then ⟨[], false, false, false, false⟩
  else if !networkOk then ⟨[.updateError netErrMsg], false, false, false, false⟩
  else if !extractOk then
    ⟨[.updateCompleted .extractionError
        "Failed to extract update. Ensure you have permissions."],
     true, true, false, false⟩
  else if !(installUpdate istep).1 then
    ⟨[.updateCompleted .failed "Failed to stage update files."],
     true, true, (installUpdate istep).2, false⟩
  else
    ⟨[.updateCompleted .success "Update staged successfully."],
     false, true, (installUpdate istep).2, false⟩

/-- Observable outcome of the Linux `OnDownloadFinished` handler. -/
structure LinuxFinishOutcome where
  emitted : List Emission
  wroteNewFile : Bool
  renamed : Bool
  backupCopied : Bool
  update_in_progress : Bool
deriving DecidableEq

/-- Linux `UpdaterService::OnDownloadFinished`: after the shared cancel and
transport-error guards, an unset or empty `APPIMAGE` environment variable
emits `UpdateError` and stops; otherwise an optional backup copy is made,
the payload is written to a `.new` sibling, marked executable and atomically
renamed over the running AppImage (a rename error emits `UpdateError`), and
`Success` is emitted. -/
def onDownloadFinishedLinux (cancelRequested networkOk : Bool)
    (netErrMsg renameErrMsg appimagePath : String)
    (backupsEnabled openOk renameOk : Bool) : LinuxFinishOutcome :=
  if cancelRequested then ⟨[], false, false, false, false⟩
  else if !networkOk then ⟨[.updateError netErrMsg], false, false, false, false⟩
  else if appimagePath = "" then
    ⟨[.updateError "Not running from an AppImage. Manual update required."],
     false, false, false, false⟩
  else if openOk then
    if !renameOk then
      ⟨[.updateError ("Failed to replace AppImage: " ++ renameErrMsg)],
       true, false, backupsEnabled, false⟩
    else
      ⟨[.updateCompleted .success "Success"], true, true, backupsEnabled, false⟩
  else ⟨[.updateCompleted .success "Success"], false, false, backupsEnabled, false⟩

/-- The cleanup loop of the generated `apply_update.bat`: `rd /s /q` on the
staging directory, re-attempted while the directory still exists and fewer
than 5 retries have been counted. `removedAt k` states that the k-th
deletion attempt (0-based) got rid of the directory; the result is the
number of deletion attempts made. -/
def cleanupAttempts (removedAt : Nat → Bool) : Nat :=
  if removedAt 0 then 1
  else if removedAt 1 then 2
  else if removedAt 2 then 3
  else if removedAt 3 then 4
  else 5

example : extractCommitHash "Nightly Build - a1b2c3d" = "a1b2c3d" := by decide

example :
    selectAssets Platform.windows "x86_64"
      [JVal.jobj [("name", JVal.jstr "citron-windows.zip"),
                  ("browser_download_url", JVal.jstr "u")]]
      = [{ name := "citron-windows.zip", url := "u" }] := by decide

/-! Helper lemmas. -/

theorem any_eq_not_isEmpty_filter {α : Type} (q : α → Bool) (l : List α) :
    l.any q = !(l.filter q).isEmpty := by
  induction l with
  | nil => rfl
  | cons a t ih =>
    cases hq : q a <;> simp [List.any_cons, List.filter_cons, hq, ih]

theorem find?_congr_mem {α : Type} (p q : α → Bool) :
    ∀ l : List α, (∀ x ∈ l, p x = q x) → List.find? p l = List.find? q l := by
  intro l
  induction l with
  | nil => intro _; rfl
  | cons a t ih =>
    intro h
    have ha := h a (List.mem_cons_self a t)
    cases hq : q a
    · rw [List.find?_cons_of_neg _ (by rw [ha, hq]; exact Bool.false_ne_true),
          List.find?_cons_of_neg _ (by rw [hq]; exact Bool.false_ne_true)]
      exact ih fun x hx => h x (List.mem_cons_of_mem a hx)
    · rw [List.find?_cons_of_pos _ (ha.trans hq), List.find?_cons_of_pos _ hq]

theorem selectLists_snd_eq_filter (p : Platform) (variant : String)
    (assets : List JVal) :
    (selectLists p variant assets).2
      = List.filter (fun o => variantPred p variant o.name)
          (selectLists p variant assets).1 := by
  induction assets with
  | nil => rfl
  | cons a rest ih =>
    by_cases hos : osValidPred p (assetOption a).name
    · by_cases hvp : variantPred p variant (assetOption a).name
      · simp [selectLists, hos, hvp, List.filter_cons, ih]
      · simp [selectLists, hos, hvp, List.filter_cons, ih]
    · simp [selectLists, hos, ih]

theorem parseFeed_find (p : Platform) (variant currentV channel : String)
    (feed : List JVal) :
    parseFeed p variant currentV channel feed =
      (match List.find?
          (fun rel => (releaseVersion channel rel != "")
            && compatibleRecord p variant rel) feed with
       | some rel =>
         CheckOutcome.completed (currentV != releaseVersion channel rel)
           (buildInfo p variant currentV channel rel)
       | none => CheckOutcome.silent) := by
  induction feed with
  | nil => rfl
  | cons rel rest ih =>
    by_cases hv : releaseVersion channel rel = ""
    · rw [List.find?_cons_of_neg _ (by simp [hv, compatibleRecord])]
      simpa [parseFeed, hv] using ih
    · by_cases he : (selectAssets p variant (releaseAssets rel)).isEmpty
      · rw [List.find?_cons_of_neg _ (by simp [compatibleRecord, he])]
        simpa [parseFeed, hv, he] using ih
      · rw [List.find?_cons_of_pos _
            (by simp [compatibleRecord, he, bne_iff_ne, hv])]
        simp [parseFeed, hv, he]

/-! Claim theorems. -/

/-- Claim C2: on both platforms and for every asset list and running
variant, `variant_matched` is exactly the variant-matching subsequence of
`os_valid`; some platform-valid asset matches the running variant exactly
when `variant_matched` is non-empty; the selected `download_options` are
`variant_matched` when that is non-empty and `os_valid` otherwise; and the
selection is empty exactly when `os_valid` is empty (so a non-empty
`os_valid` with a variant match yields exactly the variant-matched subset,
never the broader platform-valid set). -/
theorem C2_selectAssets_shape (p : Platform) (variant : String)
    (assets : List JVal) :
    variantMatched p variant assets
        = List.filter (fun o => variantPred p variant o.name)
            (osValid p variant assets)
    ∧ (osValid p variant assets).any (fun o => variantPred p variant o.name)
        = !(variantMatched p variant assets).isEmpty
    ∧ selectAssets p variant assets
        = (if (variantMatched p variant assets).isEmpty then
             osValid p variant assets
           else variantMatched p variant assets)
    ∧ (selectAssets p variant assets).isEmpty
        = (osValid p variant assets).isEmpty := by
  have hfilter := selectLists_snd_eq_filter p variant assets
  refine ⟨hfilter, ?_, rfl, ?_⟩
  · rw [any_eq_not_isEmpty_filter]
    unfold variantMatched osValid at *
    rw [hfilter]
  · by_cases hvm : (variantMatched p variant assets).isEmpty
    · simp [selectAssets, hvm]
    · have hos : (osValid p variant assets).isEmpty = false := by
        cases hlist : osValid p variant assets with
        | nil =>
          exfalso
          apply hvm
          unfold variantMatched osValid at *
          rw [hfilter, hlist]
          rfl
        | cons x xs => rfl
      simp [selectAssets, hvm, hos]

/-- Claim C4 (amended): a feed payload that is not the expected JSON array —
whether it failed to parse at all (`none`) or parsed to a non-array value —
makes `ParseUpdateResponse` return silently: nothing is emitted to the
caller and no further action is taken. -/
theorem C4_amended_silent (p : Platform)
    (variant settingsChannel hash version channel s : String)
    (fields : List (String × JVal)) (b : Bool) :
    parseUpdateResponse p variant settingsChannel hash version channel none
        = CheckOutcome.silent
    ∧ parseUpdateResponse p variant settingsChannel hash version channel
        (some (JVal.jstr s)) = CheckOutcome.silent
    ∧ parseUpdateResponse p variant settingsChannel hash version channel
        (some (JVal.jobj fields)) = CheckOutcome.silent
    ∧ parseUpdateResponse p variant settingsChannel hash version channel
        (some JVal.jnull) = CheckOutcome.silent
    ∧ parseUpdateResponse p variant settingsChannel hash version channel
        (some (JVal.jbool b)) = CheckOutcome.silent
    ∧ parseUpdateResponse p variant settingsChannel hash version channel
        (some JVal.jnum) = CheckOutcome.silent :=
  ⟨rfl, rfl, rfl, rfl, rfl, rfl⟩

/-- Claim C4 (counterexample): on the malformed feed payload `{}` (a JSON
object where the array is expected) `ParseUpdateResponse` surfaces nothing
to the caller — contrary to the claim, no `ParseError` (nor any other
signal) is reported; the function silently returns. -/
theorem C4_counterexample :
    surfaced (parseUpdateResponse Platform.windows "x86_64" "Nightly"
      "abc1234" "1.0.0" "Nightly" (some (JVal.jobj []))) = false := by decide

/-- Claim C6: cancelling while a download is in flight (`update_in_progress`
set, live reply) clears the in-progress flag and aborts the transfer; and
the finished-handler of a cancelled attempt — on either platform — emits
nothing (in particular no `Success` completion) and writes no payload file. -/
theorem C6_cancel_during_download (cr networkOk extractOk : Bool)
    (istep : InstallStep) (msg renameErrMsg appimage : String)
    (backupsEnabled openOk renameOk : Bool) :
    cancelUpdate ⟨true, cr, true⟩ = ⟨⟨false, true, true⟩, true⟩
    ∧ (onDownloadFinishedWin true networkOk extractOk istep msg).emitted = []
    ∧ emitsSuccess (onDownloadFinishedWin true networkOk extractOk istep msg).emitted
        = false
    ∧ (onDownloadFinishedWin true networkOk extractOk istep msg).wroteZip = false
    ∧ (onDownloadFinishedWin true networkOk extractOk istep msg).update_in_progress
        = false
    ∧ (onDownloadFinishedLinux true networkOk msg renameErrMsg appimage
        backupsEnabled openOk renameOk).emitted = []
    ∧ emitsSuccess (onDownloadFinishedLinux true networkOk msg renameErrMsg
        appimage backupsEnabled openOk renameOk).emitted = false
    ∧ (onDownloadFinishedLinux true networkOk msg renameErrMsg appimage
        backupsEnabled openOk renameOk).wroteNewFile = false
    ∧ (onDownloadFinishedLinux true networkOk msg renameErrMsg appimage
        backupsEnabled openOk renameOk).update_in_progress = false :=
  ⟨rfl, rfl, rfl, rfl, rfl, rfl, rfl, rfl, rfl⟩

/-- Claim C7: while the atomic in-progress flag is set (any such state),
`CheckForUpdates` issues no request and `DownloadAndInstallUpdate` (either
platform, whatever the backup outcome would be) emits nothing, attempts no
backup, starts no download, and leaves the state — flag included —
unchanged: at most one update attempt is in flight. -/
theorem C7_single_flight (cr har : Bool) (p : Platform) (backupOk : Bool) :
    checkForUpdates ⟨true, cr, har⟩ = (⟨true, cr, har⟩, false)
    ∧ downloadAndInstallUpdate p ⟨true, cr, har⟩ backupOk
        = ⟨⟨true, cr, har⟩, [], false, false⟩ :=
  ⟨rfl, rfl⟩

/-- Claim C8: on the staged-helper platform (Windows), when the snapshot of
`citron.exe` cannot be made, `DownloadAndInstallUpdate` from an idle state
reports `PermissionError`, starts no download (so no extraction or install
step can ever run for this attempt), and clears the in-progress flag. -/
theorem C8_backup_failure_aborts (cr har : Bool) :
    downloadAndInstallUpdate Platform.windows ⟨false, cr, har⟩ false
      = ⟨⟨false, false, har⟩,
         [Emission.updateCompleted UpdateResult.permissionError
            "Failed to create backup of citron.exe"],
         true, false⟩ :=
  rfl

/-- Claim C10: on the Linux direct-replace path, when the download finishes
(uncancelled, without transport error) but the `APPIMAGE` environment
variable is unset or empty, the handler emits the error
"Not running from an AppImage. Manual update required.", writes no file,
replaces nothing, copies no backup, and clears the in-progress flag. -/
theorem C10_appimage_precondition (backupsEnabled openOk renameOk : Bool)
    (msg renameErrMsg : String) :
    onDownloadFinishedLinux false true msg renameErrMsg ""
        backupsEnabled openOk renameOk
      = ⟨[Emission.updateError
            "Not running from an AppImage. Manual update required."],
         false, false, false, false⟩ :=
  rfl

/-- Claim C1: for a well-formed feed (a JSON array of release records, each
with a derivable version string) and any channel, `ParseUpdateResponse`
emits the release built from the first record in feed order whose asset
list yields a non-empty download-option list — the result is fully
determined by that first compatible record, so later (older) records are
never chosen, whatever their versions — and stays silent when no record is
compatible. -/
theorem C1_first_compatible_record (p : Platform)
    (variant settingsChannel hash version channel : String) (feed : List JVal)
    (hwf : ∀ rel ∈ feed, releaseVersion channel rel ≠ "") :
    parseUpdateResponse p variant settingsChannel hash version channel
        (some (JVal.jarr feed)) =
      (match List.find? (fun rel => compatibleRecord p variant rel) feed with
       | some rel =>
         CheckOutcome.completed
           (getCurrentVersion settingsChannel hash version channel
             != releaseVersion channel rel)
           (buildInfo p variant
             (getCurrentVersion settingsChannel hash version channel)
             channel rel)
       | none => CheckOutcome.silent) := by
  show parseFeed p variant
      (getCurrentVersion settingsChannel hash version channel) channel feed = _
  rw [parseFeed_find]
  have hpred : List.find?
      (fun rel => (releaseVersion channel rel != "")
        && compatibleRecord p variant rel) feed
      = List.find? (fun rel => compatibleRecord p variant rel) feed := by
    apply find?_congr_mem
    intro x hx
    rw [bne_iff_ne.mpr (hwf x hx), Bool.true_and]
  rw [hpred]

/-- Demo feed for claim C1: two releases, both with a compatible Windows
asset, the later (older) one carrying a different version; the check picks
the first. -/
def c1Rel1 : JVal :=
  .jobj [("tag_name", .jstr "v2.0.0"), ("name", .jstr "Citron v2.0.0"),
         ("body", .jstr "newer"), ("published_at", .jstr "2026-01-02"),
         ("assets", .jarr [.jobj [("name", .jstr "citron-windows.zip"),
            ("browser_download_url", .jstr "https://example.org/two.zip")]])]

def c1Rel2 : JVal :=
  .jobj [("tag_name", .jstr "v1.0.0"), ("name", .jstr "Citron v1.0.0"),
         ("body", .jstr "older"), ("published_at", .jstr "2025-01-01"),
         ("assets", .jarr [.jobj [("name", .jstr "citron-windows.zip"),
            ("browser_download_url", .jstr "https://example.org/one.zip")]])]

/-- Claim C1 witness: on the two-record demo feed (second record older and
with a different version, both records compatible) the check returns the
release built from the first record. -/
theorem C1_witness :
    parseUpdateResponse Platform.windows "x86_64" "Stable" "abc1234" "v0.9.0"
        "Stable" (some (JVal.jarr [c1Rel1, c1Rel2]))
      = CheckOutcome.completed true
          (buildInfo Platform.windows "x86_64" "v0.9.0" "Stable" c1Rel1) := by
  have h := C1_first_compatible_record Platform.windows "x86_64" "Stable"
    "abc1234" "v0.9.0" "Stable" [c1Rel1, c1Rel2] (by decide)
  rw [h]
  rfl

/-- Claim C3: whenever a check completes, the reported release's
`is_newer_version` is plain string inequality against the running build's
identifier for the channel: it is `false` exactly when the two strings are
equal, and the emitted flag is that same field. (The witness instantiates
this with a fetched version that is semantically older than the current one
and is still reported as newer.) -/
theorem C3_version_string_inequality (p : Platform)
    (variant settingsChannel hash version channel : String)
    (doc : Option JVal) (b : Bool) (info : UpdateInfo)
    (h : parseUpdateResponse p variant settingsChannel hash version channel doc
          = CheckOutcome.completed b info) :
    (info.is_newer_version = false
      ↔ getCurrentVersion settingsChannel hash version channel = info.version)
    ∧ b = info.is_newer_version := by
  rcases doc with _ | v
  · exact absurd h (by simp [parseUpdateResponse])
  cases v with
  | jnull => exact absurd h (by simp [parseUpdateResponse])
  | jbool bb => exact absurd h (by simp [parseUpdateResponse])
  | jnum => exact absurd h (by simp [parseUpdateResponse])
  | jstr s => exact absurd h (by simp [parseUpdateResponse])
  | jobj fields => exact absurd h (by simp [parseUpdateResponse])
  | jarr feed =>
    have h' : parseFeed p variant
        (getCurrentVersion settingsChannel hash version channel) channel feed
        = CheckOutcome.completed b info := h
    rw [parseFeed_find] at h'
    split at h'
    · injection h' with h1 h2
      subst h1
      subst h2
      refine ⟨?_, rfl⟩
      simp only [buildInfo]
      exact bne_eq_false_iff_eq
    · exact absurd h' (by simp)

/-- Demo release for claim C3: fetched version `v1.0.0`, semantically older
than the running `v2.0.0`, with a compatible Windows asset. -/
def c3Rel : JVal :=
  .jobj [("tag_name", .jstr "v1.0.0"), ("name", .jstr "Citron v1.0.0"),
         ("body", .jstr "older release"), ("published_at", .jstr "2025-06-01"),
         ("assets", .jarr [.jobj [("name", .jstr "citron-windows.zip"),
            ("browser_download_url", .jstr "https://example.org/old.zip")]])]

def c3Info : UpdateInfo :=
  buildInfo Platform.windows "x86_64" "v2.0.0" "Stable" c3Rel

/-- Claim C3 witness: current version `v2.0.0`, fetched version `v1.0.0`
(an older build): the strings differ, so the release is reported as newer
(`is_newer_version = true`), and the `false`-iff-equal characterisation
holds at this input. -/
theorem C3_witness :
    ((c3Info.is_newer_version = false
        ↔ getCurrentVersion "Stable" "abc1234" "v2.0.0" "Stable"
            = c3Info.version)
      ∧ true = c3Info.is_newer_version) :=
  C3_version_string_inequality Platform.windows "x86_64" "Stable" "abc1234"
    "v2.0.0" "Stable" (some (JVal.jarr [c3Rel])) true c3Info (by decide)

/-- Claim C5 (counterexample): a failure at the Downloading stage (transport
error on the finished reply, attempt not cancelled) does not invoke
`RestoreBackup` and reports no `UpdateResult` at all — it emits only the
`UpdateError` message signal — contradicting the claim that any failure at
Downloading, Extracting or Installing triggers a restore and reports an
`UpdateResult`. -/
theorem C5_counterexample :
    (onDownloadFinishedWin false false true InstallStep.ok
        "Connection refused").restoreInvoked = false
    ∧ reportsUpdateResult (onDownloadFinishedWin false false true
        InstallStep.ok "Connection refused").emitted = false
    ∧ (onDownloadFinishedWin false false true InstallStep.ok
        "Connection refused").update_in_progress = false := by decide

/-- Claim C5 (amended): failures at the Extracting or Installing stage
trigger `RestoreBackup`, report an `UpdateResult` (`ExtractionError`
respectively `Failed`), and clear the in-progress flag; a failure at the
Downloading stage clears the flag and reports only an `UpdateError` message,
without invoking `RestoreBackup`. -/
theorem C5_amended_failure_paths (istep : InstallStep) (msg : String)
    (extractOk : Bool) :
    ((onDownloadFinishedWin false true false istep msg).restoreInvoked = true
      ∧ (onDownloadFinishedWin false true false istep msg).emitted
          = [Emission.updateCompleted UpdateResult.extractionError
               "Failed to extract update. Ensure you have permissions."]
      ∧ (onDownloadFinishedWin false true false istep msg).update_in_progress
          = false)
    ∧ ((onDownloadFinishedWin false true true InstallStep.stageCopyFail
          msg).restoreInvoked = true
      ∧ (onDownloadFinishedWin false true true InstallStep.stageCopyFail
          msg).emitted
          = [Emission.updateCompleted UpdateResult.failed
               "Failed to stage update files."]
      ∧ (onDownloadFinishedWin false true true InstallStep.stageCopyFail
          msg).update_in_progress = false)
    ∧ (onDownloadFinishedWin false true true InstallStep.stageCreateFail
        msg).restoreInvoked = true
    ∧ (onDownloadFinishedWin false true true InstallStep.helperScriptFail
        msg).restoreInvoked = true
    ∧ ((onDownloadFinishedWin false false extractOk istep msg).emitted
          = [Emission.updateError msg]
      ∧ (onDownloadFinishedWin false false extractOk istep msg).restoreInvoked
          = false
      ∧ (onDownloadFinishedWin false false extractOk istep
          msg).update_in_progress = false) :=
  ⟨⟨rfl, rfl, rfl⟩, ⟨rfl, rfl, rfl⟩, rfl, rfl, ⟨rfl, rfl, rfl⟩⟩

/-- Claim C9 (counterexample): an attempt that fails while staging (a file
copy into the existing staging tree fails) completes — it reports `Failed`
and clears the in-progress flag — yet the staging directory still exists,
and nothing in that attempt will ever remove it: the only deletion code
lives in the helper script, which is not created on this path. -/
theorem C9_counterexample :
    (onDownloadFinishedWin false true true InstallStep.stageCopyFail
        "x").stagingExists = true
    ∧ reportsUpdateResult (onDownloadFinishedWin false true true
        InstallStep.stageCopyFail "x").emitted = true
    ∧ (onDownloadFinishedWin false true true InstallStep.stageCopyFail
        "x").update_in_progress = false := by decide

/-- Claim C9 (amended): when an update attempt completes, the staging
directory exists exactly when extraction succeeded and `InstallUpdate` got
as far as creating it — on both failed and successful attempts; the attempt
itself never purges it. It is deleted only later, by the detached helper
script's cleanup loop, which makes at most 5 deletion attempts and then
gives up silently. -/
theorem C9_amended_staging (cancel networkOk extractOk : Bool)
    (istep : InstallStep) (msg : String) (f : Nat → Bool) :
    (onDownloadFinishedWin cancel networkOk extractOk istep msg).stagingExists
      = (!cancel && (networkOk && (extractOk && (installUpdate istep).2)))
    ∧ cleanupAttempts f ≤ 5 := by
  constructor
  · cases cancel <;> cases networkOk <;> cases extractOk <;> cases istep <;> rfl
  · unfold cleanupAttempts
    by_cases h0 : f 0 <;> by_cases h1 : f 1 <;> by_cases h2 : f 2 <;>
      by_cases h3 : f 3 <;> simp [h0, h1, h2, h3]

end Citron
